import Mathlib

/-!
# IBSMS_MQTT: the MQTT to MongoDB ingestion callback

A shallow embedding of `mongodb.go`: the per-message callback `messageHandler`
and the store write `insertBikeHistoryData`, with the effects of one callback
(standard output, `InsertOne` calls, documents in `IBSMS.bikes_history`, and
whether the goroutine returned or panicked) passed explicitly as a `World`.

Library behaviour the callback relies on is modelled from the library
documentation:

* `encoding/json`: `json.Unmarshal` into a `map[string]interface{}` yields a
  `float64` for every number, fails on bytes that are not JSON and on JSON
  values that are not an object, and leaves the map `nil` with a `nil` error on
  the JSON literal `null`;
* a `float64` decoded from JSON is finite, hence a rational number; values are
  carried as `ℚ`, and `IsFloat64` singles out the rationals that are binary64
  values;
* the conversion `int64(f)` truncates toward zero when the result fits, and is
  implementation-dependent otherwise (a parameter of the model);
* `time.Unix(sec, nsec)` is the instant `sec` seconds and `nsec` nanoseconds
  after the epoch;
* the MongoDB driver stores a `time.Time` as a BSON datetime, a signed 64-bit
  count of milliseconds after the epoch, computed as
  `t.Unix()*1e3 + int64(t.Nanosecond())/1e6` in `int64` arithmetic; the other
  values of the document are stored as they are.
-/

namespace IBSMS

/-! ## Dynamically typed JSON values (`interface{}` after `json.Unmarshal`) -/

/-- A decoded JSON value: `nil`, `bool`, `float64`, `string`, `[]interface{}`
or `map[string]interface{}`. Object members are kept in document order. -/
inductive JSON where
  | null
  | bool (b : Bool)
  | num (x : ℚ)
  | str (s : String)
  | arr (xs : List JSON)
  | obj (kvs : List (String × JSON))

/-- The bytes of an inbound message as `json.Unmarshal` sees them: either it
returns an error whatever the target type (a syntax error, or a number literal
outside `float64`), or they spell one JSON document. -/
inductive Payload where
  | invalid
  | doc (v : JSON)

/-- A Go `map[string]interface{}`: `none` is the `nil` map. -/
abbrev GoMap := Option (List (String × JSON))

/-- The result of `json.Unmarshal(bytes, &payload)` for a fresh
`var payload map[string]interface{}`: an error, or the map left in `payload`. -/
def json_Unmarshal : Payload → Except String GoMap
  | .invalid => .error "invalid character"
  | .doc .null => .ok none
  | .doc (.obj kvs) => .ok (some kvs)
  | .doc (.bool _) => .error "json: cannot unmarshal bool into Go value of type map[string]interface \x7b\x7d"
  | .doc (.num _) => .error "json: cannot unmarshal number into Go value of type map[string]interface \x7b\x7d"
  | .doc (.str _) => .error "json: cannot unmarshal string into Go value of type map[string]interface \x7b\x7d"
  | .doc (.arr _) => .error "json: cannot unmarshal array into Go value of type map[string]interface \x7b\x7d"

/-- The member stored under `k` once every member of the object has been put
into the map: a later duplicate key replaces an earlier one. -/
def lookupLast (k : String) : List (String × JSON) → Option JSON
  | [] => none
  | (k', v) :: rest =>
    match lookupLast k rest with
    | some v' => some v'
    | none => if k' = k then some v else none

/-- The index expression `payload[k]`: `none` when the key is absent (Go then
yields the `nil` interface and `ok = false`); reading a `nil` map is allowed
and finds nothing. -/
def mapIndex (payload : GoMap) (k : String) : Option JSON :=
  match payload with
  | none => none
  | some kvs => lookupLast k kvs

/-- The type assertion `v.(string)`; `none` is the run-time panic of the
one-result form. -/
def assertString : Option JSON → Option String
  | some (.str s) => some s
  | _ => none

/-- The type assertion `v.(float64)`. -/
def assertFloat64 : Option JSON → Option ℚ
  | some (.num x) => some x
  | _ => none

/-- The type assertion `v.(bool)`. -/
def assertBool : Option JSON → Option Bool
  | some (.bool b) => some b
  | _ => none

/-- The type assertion `v.([]interface{})`; in the two-result form `none` is
`ok = false`. A slice decoded from a JSON array is never `nil`. -/
def assertSlice : Option JSON → Option (List JSON)
  | some (.arr xs) => some xs
  | _ => none

/-- The loop `for i, v := range xs { out[i] = v.(float64) }`: the slice of
floats, or `none` when an element fails the assertion. -/
def assertFloats : List JSON → Option (List ℚ)
  | [] => some []
  | v :: rest =>
    match assertFloat64 (some v) with
    | none => none
    | some x =>
      match assertFloats rest with
      | none => none
      | some xs => some (x :: xs)

/-! ## Numeric conversion and time -/

/-- Smallest `int64`. -/
def minInt64 : Int := -9223372036854775808

/-- Largest `int64`. -/
def maxInt64 : Int := 9223372036854775807

/-- Two's-complement reduction of an integer into the `int64` range. -/
def wrapInt64 (i : Int) : Int := (i + 9223372036854775808) % 18446744073709551616 - 9223372036854775808

/-- The integer part of `x`, rounding toward zero. -/
def truncate (x : ℚ) : Int := Int.tdiv x.num x.den

/-- Whether the integer part of `x` is an `int64`. -/
def fitsInt64 (x : ℚ) : Prop := minInt64 ≤ truncate x ∧ truncate x ≤ maxInt64

instance (x : ℚ) : Decidable (fitsInt64 x) := by unfold fitsInt64; infer_instance

/-- The conversion `int64(x)` of a `float64`: the integer part when it fits,
otherwise whatever `int64` the target architecture produces (`arch x`). -/
def int64 (arch : ℚ → Int) (x : ℚ) : Int :=
  if fitsInt64 x then truncate x else wrapInt64 (arch x)

/-- The rational `x` is a finite binary64 value: a 53-bit significand times
a power of two in the binary64 exponent range. -/
def IsFloat64 (x : ℚ) : Prop :=
  ∃ m e : Int, |m| < 2 ^ 53 ∧ -1074 ≤ e ∧ e ≤ 971 ∧ x = (m : ℚ) * (2 : ℚ) ^ e

/-- An instant: seconds and nanoseconds after the Unix epoch. -/
structure Time where
  sec : Int
  nsec : Int
deriving DecidableEq, Repr

/-- The instant `time.Unix(sec, nsec)` for `0 ≤ nsec < 1e9`. -/
def time_Unix (sec nsec : Int) : Time := { sec := sec, nsec := nsec }

/-! ## The store and the world -/

/-- The `bson.M` document built by `insertBikeHistoryData`. -/
structure Document where
  bikeId : String
  timestamp : Time
  tire_pressure : List ℚ
  seat_rotate : List ℚ
  isBrake : Bool
  seat_tube : List ℚ
  keyes_pressure : Int
deriving DecidableEq

/-- The BSON datetime the driver writes for a `time.Time`: the milliseconds
`t.Unix()*1e3 + int64(t.Nanosecond())/1e6`, computed in `int64`. -/
def bsonDateTime (t : Time) : Int := wrapInt64 (t.sec * 1000 + t.nsec / 1000000)

/-- Whether `sec` seconds, counted in milliseconds, is a BSON datetime. -/
def fitsDateTime (sec : Int) : Prop := -9223372036854775 ≤ sec ∧ sec ≤ 9223372036854775

instance (sec : Int) : Decidable (fitsDateTime sec) := by unfold fitsDateTime; infer_instance

/-- A document as the `bikes_history` collection holds it: the timestamp is a
BSON datetime in milliseconds, the other fields are those of the `bson.M`. -/
structure StoredDocument where
  bikeId : String
  timestamp : Int
  tire_pressure : List ℚ
  seat_rotate : List ℚ
  isBrake : Bool
  seat_tube : List ℚ
  keyes_pressure : Int
deriving DecidableEq

/-- The BSON encoding of the `bson.M` document. -/
def marshal (data : Document) : StoredDocument :=
  { bikeId := data.bikeId, timestamp := bsonDateTime data.timestamp,
    tire_pressure := data.tire_pressure, seat_rotate := data.seat_rotate,
    isBrake := data.isBrake, seat_tube := data.seat_tube,
    keyes_pressure := data.keyes_pressure }

/-- How a callback invocation ended. -/
inductive Exit where
  | returned
  | panicked
deriving DecidableEq, Repr

/-- What the callback can affect: the `IBSMS.bikes_history` collection
(append-only, holding BSON documents), the lines printed so far, and the Go
documents handed to `InsertOne` so far. -/
structure World where
  bikes_history : List StoredDocument
  stdout : List String
  insertOneCalls : List Document
deriving DecidableEq

/-- The effect of `fmt.Println` / `fmt.Printf` with a trailing newline. -/
def println (w : World) (line : String) : World :=
  { w with stdout := w.stdout ++ [line] }

/-- The driver call `historyCollection.InsertOne(ctx, data)`: `driverErr` is the
error the driver reports for this call, if any. The call is recorded; a
rejected insert leaves the collection as it was, an accepted one appends the
BSON encoding of the document. Returns the `err` result and the world after
the call. -/
def InsertOne (driverErr : Option String) (data : Document) (w : World) : Option String × World :=
  let w := { w with insertOneCalls := w.insertOneCalls ++ [data] }
  match driverErr with
  | some err => (some err, w)
  | none => (none, { w with bikes_history := w.bikes_history ++ [marshal data] })

/-- The function `insertBikeHistoryData` of `mongodb.go`: build the document,
call `InsertOne` once, print the outcome. The global `client` is the connected
client `main` set up before subscribing. -/
def insertBikeHistoryData (driverErr : Option String) (bikeID : String) (timeObj : Time)
    (tire_pressure seat_rotate : List ℚ) (isBrake : Bool) (seat_tube : List ℚ)
    (keyes_pressure : Int) (w : World) : World :=
  let data : Document :=
    { bikeId := bikeID, timestamp := timeObj, tire_pressure := tire_pressure,
      seat_rotate := seat_rotate, isBrake := isBrake, seat_tube := seat_tube,
      keyes_pressure := keyes_pressure }
  match InsertOne driverErr data w with
  | (some err, w) => println w ("Failed to insert data into MongoDB: " ++ err)
  | (none, w) => println w "Data inserted into MongoDB!"

/-! ## The callback -/

/-- An inbound MQTT message: its topic, its payload as printed by `%s`, and
the payload as `json.Unmarshal` reads it. -/
structure Message where
  topic : String
  text : String
  payload : Payload

/-- The function `messageHandler` of `mongodb.go`. `arch` fixes the
implementation-dependent results of `int64(f)`, `driverErr` the outcome of the
`InsertOne` call this invocation may make. -/
def messageHandler (arch : ℚ → Int) (driverErr : Option String) (msg : Message) (w : World) :
    Exit × World :=
  let w := println w ("Received message on topic: " ++ msg.topic)
  let w := println w ("Message: " ++ msg.text)
  match json_Unmarshal msg.payload with
  | .error err => (.returned, println w ("Failed to parse payload: " ++ err))
  | .ok payload =>
  if (mapIndex payload "msg").isSome then (.returned, println w "Ignore welcome message") else
  match assertString (mapIndex payload "bike_id") with
  | none => (.panicked, w)
  | some bikeId =>
  match assertFloat64 (mapIndex payload "timestamp") with
  | none => (.panicked, w)
  | some timestampFloat =>
  let timestampInt64 := int64 arch timestampFloat
  let timeObj := time_Unix timestampInt64 0
  match assertSlice (mapIndex payload "tire") with
  | none => (.panicked, w)
  | some tire_pressure =>
  match assertFloats tire_pressure with
  | none => (.panicked, w)
  | some tire_pressure_floats =>
  match assertSlice (mapIndex payload "seat_rotate") with
  | none => (.returned, println w "Invalid or nil seat_rotate")
  | some seat_rotate_interface =>
  match assertFloats seat_rotate_interface with
  | none => (.returned, println w "Invalid value in seat_rotate slice")
  | some seat_rotate =>
  match assertBool (mapIndex payload "isBrake") with
  | none => (.panicked, w)
  | some isBrake =>
  match assertSlice (mapIndex payload "acceleration") with
  | none => (.panicked, w)
  | some seat_tube =>
  match assertFloats seat_tube with
  | none => (.panicked, w)
  | some seat_tube_floats =>
  match assertFloat64 (mapIndex payload "seat_tube") with
  | none => (.panicked, w)
  | some keyes_pressure =>
  let keyes_pressure_int := int64 arch keyes_pressure
  (.returned, insertBikeHistoryData driverErr bikeId timeObj tire_pressure_floats seat_rotate
    isBrake seat_tube_floats keyes_pressure_int w)

/-- Deliver a sequence of messages, each with the driver outcome of its
`InsertOne` call; a panic ends the process, so later messages are not handled. -/
def deliver (arch : ℚ → Int) : List (Option String × Message) → World → Exit × World
  | [], w => (.returned, w)
  | (driverErr, msg) :: rest, w =>
    match messageHandler arch driverErr msg w with
    | (.panicked, w') => (.panicked, w')
    | (.returned, w') => deliver arch rest w'

/-- An empty collection and no output yet. -/
def World.init : World := { bikes_history := [], stdout := [], insertOneCalls := [] }

/-- The world `w` extended by everything recorded in `d`. -/
def World.extend (w d : World) : World :=
  { bikes_history := w.bikes_history ++ d.bikes_history,
    stdout := w.stdout ++ d.stdout,
    insertOneCalls := w.insertOneCalls ++ d.insertOneCalls }

/-! ## What the specification calls a well-formed payload -/

/-- The seven required fields of a telemetry payload, each with the type the
handler expects. -/
structure Fields where
  bike_id : String
  timestamp : ℚ
  tire : List ℚ
  seat_rotate : List ℚ
  isBrake : Bool
  acceleration : List ℚ
  seat_tube : ℚ

/-- The decoded object `kvs` supplies all seven required fields, correctly
typed, with the values `f`: `bike_id` a string, `timestamp` a number, `tire`,
`seat_rotate` and `acceleration` arrays of numbers (same length, same order),
`isBrake` a boolean, `seat_tube` a number. -/
def Supplies (kvs : List (String × JSON)) (f : Fields) : Prop :=
  lookupLast "bike_id" kvs = some (.str f.bike_id) ∧
  lookupLast "timestamp" kvs = some (.num f.timestamp) ∧
  lookupLast "tire" kvs = some (.arr (f.tire.map .num)) ∧
  lookupLast "seat_rotate" kvs = some (.arr (f.seat_rotate.map .num)) ∧
  lookupLast "isBrake" kvs = some (.bool f.isBrake) ∧
  lookupLast "acceleration" kvs = some (.arr (f.acceleration.map .num)) ∧
  lookupLast "seat_tube" kvs = some (.num f.seat_tube)

/-- The document the handler stores for the fields `f`. -/
def record (arch : ℚ → Int) (f : Fields) : Document :=
  { bikeId := f.bike_id, timestamp := time_Unix (int64 arch f.timestamp) 0,
    tire_pressure := f.tire, seat_rotate := f.seat_rotate, isBrake := f.isBrake,
    seat_tube := f.acceleration, keyes_pressure := int64 arch f.seat_tube }

/-- The two lines every invocation prints first. -/
def echoed (msg : Message) (w : World) : World :=
  println (println w ("Received message on topic: " ++ msg.topic)) ("Message: " ++ msg.text)

/-! ## Concrete payloads -/

/-- The behaviour of `int64(f)` on amd64 for a value that does not fit: the
conversion instruction yields the "integer indefinite" value `-2^63`. -/
def amd64 : ℚ → Int := fun _ => -9223372036854775808

/-- Members of the payload
`{"bike_id":"B1","timestamp":1700000000.75,"tire":[30.5,30.25],"seat_rotate":[5],
"isBrake":false,"acceleration":[0.5,0.25,9.75],"seat_tube":101.5}`;
every number in it is a binary64 value. -/
def sampleMembers : List (String × JSON) :=
  [("bike_id", .str "B1"), ("timestamp", .num 1700000000.75),
   ("tire", .arr [.num 30.5, .num 30.25]), ("seat_rotate", .arr [.num 5]),
   ("isBrake", .bool false), ("acceleration", .arr [.num 0.5, .num 0.25, .num 9.75]),
   ("seat_tube", .num 101.5)]

/-- The fields `sampleMembers` supplies. -/
def sampleFields : Fields :=
  { bike_id := "B1", timestamp := 1700000000.75, tire := [30.5, 30.25], seat_rotate := [5],
    isBrake := false, acceleration := [0.5, 0.25, 9.75], seat_tube := 101.5 }

/-- A telemetry message with a fractional timestamp and a fractional `seat_tube`. -/
def sample : Message :=
  { topic := "bike_data", text := "sample", payload := .doc (.obj sampleMembers) }

/-- Members of a payload whose `timestamp` is `1e19`, beyond the `int64` range. -/
def lateMembers : List (String × JSON) :=
  [("bike_id", .str "B1"), ("timestamp", .num 10000000000000000000),
   ("tire", .arr [.num 30.5]), ("seat_rotate", .arr [.num 5]),
   ("isBrake", .bool true), ("acceleration", .arr [.num 1]),
   ("seat_tube", .num 101)]

/-- The fields `lateMembers` supplies. -/
def lateFields : Fields :=
  { bike_id := "B1", timestamp := 10000000000000000000, tire := [30.5], seat_rotate := [5],
    isBrake := true, acceleration := [1], seat_tube := 101 }

/-- A telemetry message whose `timestamp` is `1e19`. -/
def late : Message :=
  { topic := "bike_data", text := "late", payload := .doc (.obj lateMembers) }

/-- Members of a payload whose `timestamp` is `1e17`: within `int64` as
seconds, beyond it as milliseconds. -/
def farMembers : List (String × JSON) :=
  [("bike_id", .str "B1"), ("timestamp", .num 100000000000000000),
   ("tire", .arr [.num 30.5]), ("seat_rotate", .arr [.num 5]),
   ("isBrake", .bool true), ("acceleration", .arr [.num 1]),
   ("seat_tube", .num 101)]

/-- The fields `farMembers` supplies. -/
def farFields : Fields :=
  { bike_id := "B1", timestamp := 100000000000000000, tire := [30.5], seat_rotate := [5],
    isBrake := true, acceleration := [1], seat_tube := 101 }

/-- A telemetry message whose `timestamp` is `1e17`. -/
def far : Message :=
  { topic := "bike_data", text := "far", payload := .doc (.obj farMembers) }

/-- Members of a payload whose `seat_tube` is `1e19`, beyond the `int64` range. -/
def heavyMembers : List (String × JSON) :=
  [("bike_id", .str "B1"), ("timestamp", .num 1700000000),
   ("tire", .arr [.num 30.5]), ("seat_rotate", .arr [.num 5]),
   ("isBrake", .bool true), ("acceleration", .arr [.num 1]),
   ("seat_tube", .num 10000000000000000000)]

/-- The fields `heavyMembers` supplies. -/
def heavyFields : Fields :=
  { bike_id := "B1", timestamp := 1700000000, tire := [30.5], seat_rotate := [5],
    isBrake := true, acceleration := [1], seat_tube := 10000000000000000000 }

/-- A telemetry message whose `seat_tube` is `1e19`. -/
def heavy : Message :=
  { topic := "bike_data", text := "heavy", payload := .doc (.obj heavyMembers) }

/-- Scenario 1 of the specification. -/
def scenario1 : Message :=
  { topic := "bike_data", text := "scenario 1",
    payload := .doc (.obj [("bike_id", .str "B1"), ("timestamp", .num 1700000000),
      ("tire", .arr [.num 30.1, .num 30.2]), ("seat_rotate", .arr [.num 5.0]),
      ("isBrake", .bool false), ("acceleration", .arr [.num 0.1, .num 0.2, .num 9.8]),
      ("seat_tube", .num 101)]) }

/-- Scenario 2 of the specification: the welcome message `{"msg":"welcome"}`. -/
def scenario2 : Message :=
  { topic := "bike_data", text := "scenario 2",
    payload := .doc (.obj [("msg", .str "welcome")]) }

/-- Members of `{"msg":null,"bike_id":7}`: the marker with a `null` value next
to a mistyped field. -/
def markerMembers : List (String × JSON) := [("msg", .null), ("bike_id", .num 7)]

/-- The message `{"msg":null,"bike_id":7}`. -/
def marker : Message :=
  { topic := "bike_data", text := "marker", payload := .doc (.obj markerMembers) }

/-- Members of scenario 3 of the specification: `seat_rotate` is `null`. -/
def scenario3Members : List (String × JSON) :=
  [("bike_id", .str "B2"), ("timestamp", .num 1700000001),
   ("tire", .arr [.num 30.0]), ("seat_rotate", .null),
   ("isBrake", .bool true), ("acceleration", .arr [.num 1.0]),
   ("seat_tube", .num 50)]

/-- Scenario 3 of the specification. -/
def scenario3 : Message :=
  { topic := "bike_data", text := "scenario 3", payload := .doc (.obj scenario3Members) }

/-- The message whose payload is the empty object `{}`. -/
def emptyObject : Message :=
  { topic := "bike_data", text := "empty object", payload := .doc (.obj []) }

/-- Scenario 1 with `"isBrake":"false"`, a string where a boolean is expected. -/
def brakeAsString : Message :=
  { topic := "bike_data", text := "brake as string",
    payload := .doc (.obj [("bike_id", .str "B1"), ("timestamp", .num 1700000000),
      ("tire", .arr [.num 30.5]), ("seat_rotate", .arr [.num 5]),
      ("isBrake", .str "false"), ("acceleration", .arr [.num 1]),
      ("seat_tube", .num 101)]) }

/-- The message whose payload is the JSON literal `null`. -/
def nullLiteral : Message :=
  { topic := "bike_data", text := "null", payload := .doc .null }

/-- A message whose payload is not JSON. -/
def garbage : Message :=
  { topic := "bike_data", text := "not json", payload := .invalid }

/-! ## Lemmas about the type assertions -/

theorem assertString_eq_some {o : Option JSON} {s : String} (h : assertString o = some s) :
    o = some (.str s) := by
  unfold assertString at h
  split at h <;> simp_all

theorem assertFloat64_eq_some {o : Option JSON} {x : ℚ} (h : assertFloat64 o = some x) :
    o = some (.num x) := by
  unfold assertFloat64 at h
  split at h <;> simp_all

theorem assertBool_eq_some {o : Option JSON} {b : Bool} (h : assertBool o = some b) :
    o = some (.bool b) := by
  unfold assertBool at h
  split at h <;> simp_all

theorem assertSlice_eq_some {o : Option JSON} {xs : List JSON} (h : assertSlice o = some xs) :
    o = some (.arr xs) := by
  unfold assertSlice at h
  split at h <;> simp_all

theorem assertFloats_map_num (xs : List ℚ) : assertFloats (xs.map .num) = some xs := by
  induction xs with
  | nil => rfl
  | cons x xs ih => simp [assertFloats, assertFloat64, ih]

theorem assertFloats_eq_some {vs : List JSON} {xs : List ℚ} (h : assertFloats vs = some xs) :
    vs = xs.map .num := by
  induction vs generalizing xs with
  | nil => simp [assertFloats] at h; simp [← h]
  | cons v vs ih =>
    unfold assertFloats at h
    split at h
    · simp at h
    · rename_i x hx
      split at h
      · simp at h
      · rename_i ys hys
        have hv := assertFloat64_eq_some hx
        simp only [Option.some.injEq] at h hv
        subst h hv
        simp [ih hys]

/-! ## Lemmas about the world -/

@[simp]
theorem println_bikes_history (w : World) (l : String) :
    (println w l).bikes_history = w.bikes_history := rfl

@[simp]
theorem println_insertOneCalls (w : World) (l : String) :
    (println w l).insertOneCalls = w.insertOneCalls := rfl

@[simp]
theorem println_stdout (w : World) (l : String) :
    (println w l).stdout = w.stdout ++ [l] := rfl

@[simp]
theorem echoed_bikes_history (msg : Message) (w : World) :
    (echoed msg w).bikes_history = w.bikes_history := rfl

@[simp]
theorem echoed_insertOneCalls (msg : Message) (w : World) :
    (echoed msg w).insertOneCalls = w.insertOneCalls := rfl

theorem insertBikeHistoryData_rejected (err : String) (bikeID : String) (timeObj : Time)
    (tire_pressure seat_rotate : List ℚ) (isBrake : Bool) (seat_tube : List ℚ)
    (keyes_pressure : Int) (w : World) :
    insertBikeHistoryData (some err) bikeID timeObj tire_pressure seat_rotate isBrake seat_tube
        keyes_pressure w =
      { bikes_history := w.bikes_history,
        stdout := w.stdout ++ ["Failed to insert data into MongoDB: " ++ err],
        insertOneCalls := w.insertOneCalls ++
          [⟨bikeID, timeObj, tire_pressure, seat_rotate, isBrake, seat_tube, keyes_pressure⟩] } := by
  simp [insertBikeHistoryData, InsertOne, println]

theorem insertBikeHistoryData_accepted (bikeID : String) (timeObj : Time)
    (tire_pressure seat_rotate : List ℚ) (isBrake : Bool) (seat_tube : List ℚ)
    (keyes_pressure : Int) (w : World) :
    insertBikeHistoryData none bikeID timeObj tire_pressure seat_rotate isBrake seat_tube
        keyes_pressure w =
      { bikes_history := w.bikes_history ++
          [marshal
            ⟨bikeID, timeObj, tire_pressure, seat_rotate, isBrake, seat_tube, keyes_pressure⟩],
        stdout := w.stdout ++ ["Data inserted into MongoDB!"],
        insertOneCalls := w.insertOneCalls ++
          [⟨bikeID, timeObj, tire_pressure, seat_rotate, isBrake, seat_tube, keyes_pressure⟩] } := by
  simp [insertBikeHistoryData, InsertOne, println]

/-- Every call of `insertBikeHistoryData` issues exactly one `InsertOne`. -/
theorem insertBikeHistoryData_insertOneCalls (driverErr : Option String) (bikeID : String)
    (timeObj : Time) (tire_pressure seat_rotate : List ℚ) (isBrake : Bool) (seat_tube : List ℚ)
    (keyes_pressure : Int) (w : World) :
    (insertBikeHistoryData driverErr bikeID timeObj tire_pressure seat_rotate isBrake seat_tube
        keyes_pressure w).insertOneCalls =
      w.insertOneCalls ++
        [⟨bikeID, timeObj, tire_pressure, seat_rotate, isBrake, seat_tube, keyes_pressure⟩] := by
  cases driverErr <;> simp [insertBikeHistoryData_rejected, insertBikeHistoryData_accepted]

/-! ## The handler on a well-formed payload, and the converse -/

/-- On an object without `"msg"` that supplies the seven fields, the handler
reaches `insertBikeHistoryData` with the extracted values and returns. -/
theorem messageHandler_of_supplies (arch : ℚ → Int) (driverErr : Option String) (msg : Message)
    (w : World) (kvs : List (String × JSON)) (f : Fields)
    (hp : msg.payload = .doc (.obj kvs)) (hm : lookupLast "msg" kvs = none)
    (hs : Supplies kvs f) :
    messageHandler arch driverErr msg w =
      (.returned, insertBikeHistoryData driverErr f.bike_id (time_Unix (int64 arch f.timestamp) 0)
        f.tire f.seat_rotate f.isBrake f.acceleration (int64 arch f.seat_tube) (echoed msg w)) := by
  obtain ⟨h1, h2, h3, h4, h5, h6, h7⟩ := hs
  simp [messageHandler, hp, json_Unmarshal, mapIndex, hm, h1, h2, h3, h4, h5, h6, h7,
    assertString, assertFloat64, assertSlice, assertBool, assertFloats_map_num, echoed]

/-- A successful `json.Unmarshal` whose map has some member decoded an object. -/
theorem json_Unmarshal_ok_nonempty {p : Payload} {payload : GoMap} {k : String}
    (h : json_Unmarshal p = .ok payload) (hk : ∃ v, mapIndex payload k = some v) :
    ∃ kvs, p = .doc (.obj kvs) ∧ payload = some kvs := by
  obtain ⟨v, hv⟩ := hk
  cases p with
  | invalid => simp [json_Unmarshal] at h
  | doc j =>
    cases j with
    | obj kvs =>
      simp only [json_Unmarshal, Except.ok.injEq] at h
      exact ⟨kvs, rfl, h.symm⟩
    | null =>
      simp only [json_Unmarshal, Except.ok.injEq] at h
      subst h
      simp [mapIndex] at hv
    | bool _ => simp [json_Unmarshal] at h
    | num _ => simp [json_Unmarshal] at h
    | str _ => simp [json_Unmarshal] at h
    | arr _ => simp [json_Unmarshal] at h

/-- The handler touches the store only on an object without `"msg"` that
supplies the seven fields. -/
theorem messageHandler_writes_only_if (arch : ℚ → Int) (driverErr : Option String)
    (msg : Message) (w : World) :
    ((messageHandler arch driverErr msg w).2.insertOneCalls = w.insertOneCalls ∧
      (messageHandler arch driverErr msg w).2.bikes_history = w.bikes_history) ∨
    ∃ kvs f, msg.payload = .doc (.obj kvs) ∧ lookupLast "msg" kvs = none ∧ Supplies kvs f := by
  unfold messageHandler
  simp only []
  split
  · left; simp
  · rename_i payload hpay
    split
    · left; simp
    · rename_i hmsg
      split
      · left; simp
      · rename_i bikeId h1
        split
        · left; simp
        · rename_i ts h2
          split
          · left; simp
          · rename_i tire h3
            split
            · left; simp
            · rename_i tireF h3f
              split
              · left; simp
              · rename_i sr h4
                split
                · left; simp
                · rename_i srF h4f
                  split
                  · left; simp
                  · rename_i b h5
                    split
                    · left; simp
                    · rename_i acc h6
                      split
                      · left; simp
                      · rename_i accF h6f
                        split
                        · left; simp
                        · rename_i st h7
                          right
                          have e1 := assertString_eq_some h1
                          have e2 := assertFloat64_eq_some h2
                          have e3 := assertSlice_eq_some h3
                          have e4 := assertSlice_eq_some h4
                          have e5 := assertBool_eq_some h5
                          have e6 := assertSlice_eq_some h6
                          have e7 := assertFloat64_eq_some h7
                          rw [assertFloats_eq_some h3f] at e3
                          rw [assertFloats_eq_some h4f] at e4
                          rw [assertFloats_eq_some h6f] at e6
                          obtain ⟨kvs, hdoc, hkvs⟩ := json_Unmarshal_ok_nonempty hpay ⟨_, e1⟩
                          subst hkvs
                          refine ⟨kvs, ⟨bikeId, ts, tireF, srF, b, accF, st⟩, hdoc, ?_,
                            e1, e2, e3, e4, e5, e6, e7⟩
                          simpa [mapIndex] using hmsg



/-! ## Lemmas about truncation and `int64` -/

theorem truncate_of_nonneg {x : ℚ} (h : 0 ≤ x) : truncate x = ⌊x⌋ := by
  have hn : 0 ≤ x.num := Rat.num_nonneg.mpr h
  rw [truncate, Rat.floor_def, Int.tdiv_eq_ediv hn (Int.ofNat_nonneg _)]

theorem truncate_neg (x : ℚ) : truncate (-x) = -truncate x := by
  simp [truncate, Int.neg_tdiv]

theorem truncate_of_nonpos {x : ℚ} (h : x ≤ 0) : truncate x = ⌈x⌉ := by
  have h' : 0 ≤ -x := neg_nonneg.mpr h
  have := truncate_of_nonneg h'
  rw [truncate_neg, Int.floor_neg] at this
  exact neg_injective this

theorem truncate_intCast (n : Int) : truncate (n : ℚ) = n := by
  simp [truncate]

theorem truncate_cast_eq_iff (x : ℚ) : ((truncate x : Int) : ℚ) = x ↔ ∃ n : Int, (n : ℚ) = x := by
  constructor
  · intro h; exact ⟨_, h⟩
  · rintro ⟨n, rfl⟩; rw [truncate_intCast]

theorem abs_truncate_le (x : ℚ) : |((truncate x : Int) : ℚ)| ≤ |x| := by
  rcases le_total 0 x with h | h
  · rw [truncate_of_nonneg h, abs_of_nonneg h, abs_of_nonneg (by exact_mod_cast Int.floor_nonneg.mpr h)]
    exact Int.floor_le x
  · rw [truncate_of_nonpos h, abs_of_nonpos h, abs_of_nonpos (by exact_mod_cast Int.ceil_le.mpr (by simpa using h))]
    exact neg_le_neg (Int.le_ceil x)

theorem wrapInt64_bounds (i : Int) : minInt64 ≤ wrapInt64 i ∧ wrapInt64 i ≤ maxInt64 := by
  unfold wrapInt64 minInt64 maxInt64
  omega

theorem int64_bounds (arch : ℚ → Int) (x : ℚ) :
    minInt64 ≤ int64 arch x ∧ int64 arch x ≤ maxInt64 := by
  unfold int64
  split
  · assumption
  · exact wrapInt64_bounds _

theorem int64_of_fits (arch : ℚ → Int) {x : ℚ} (h : fitsInt64 x) : int64 arch x = truncate x := by
  simp [int64, h]

theorem bsonDateTime_of_fits {sec : Int} (h : fitsDateTime sec) :
    bsonDateTime (time_Unix sec 0) = sec * 1000 := by
  unfold fitsDateTime at h
  simp only [bsonDateTime, time_Unix, wrapInt64]
  omega

theorem fitsInt64_of_abs_lt {x : ℚ} (h : |x| < 2 ^ 53) : fitsInt64 x := by
  have h1 : |((truncate x : Int) : ℚ)| < 2 ^ 53 := lt_of_le_of_lt (abs_truncate_le x) h
  have h2 : |truncate x| < 2 ^ 53 := by exact_mod_cast h1
  rw [abs_lt] at h2
  unfold fitsInt64 minInt64 maxInt64
  constructor <;> omega

/-- A binary64 value that is not an integer has an integer part that fits `int64`. -/
theorem IsFloat64.fitsInt64 {x : ℚ} (hx : IsFloat64 x) (hfrac : ∀ n : Int, (n : ℚ) ≠ x) :
    fitsInt64 x := by
  obtain ⟨m, e, hm, -, -, rfl⟩ := hx
  apply fitsInt64_of_abs_lt
  rcases le_or_lt 0 e with he | he
  · exfalso
    obtain ⟨k, rfl⟩ := Int.eq_ofNat_of_zero_le he
    exact hfrac (m * 2 ^ k) (by push_cast; simp)
  · have h2 : (2 : ℚ) ^ e ≤ 1 := zpow_le_one_of_nonpos₀ (by norm_num) he.le
    have h3 : (0 : ℚ) < 2 ^ e := by positivity
    rw [abs_mul, abs_of_pos h3]
    have hm' : |(m : ℚ)| < 2 ^ 53 := by exact_mod_cast hm
    calc |(m : ℚ)| * 2 ^ e ≤ |(m : ℚ)| * 1 := by gcongr
      _ < 2 ^ 53 := by simpa using hm'

/-! ## The handler reads nothing of the world -/

theorem World.extend_init (w : World) : w.extend World.init = w := by
  simp [World.extend, World.init]

/-- What an invocation does depends on the message and on the driver only:
its effects on any world are its effects on the empty world, appended. -/
theorem messageHandler_frame (arch : ℚ → Int) (driverErr : Option String) (msg : Message)
    (w : World) :
    messageHandler arch driverErr msg w =
      ((messageHandler arch driverErr msg World.init).1,
        w.extend (messageHandler arch driverErr msg World.init).2) := by
  unfold messageHandler
  simp only []
  repeat' split
  all_goals first
    | (simp [World.extend, World.init, println]; done)
    | (cases driverErr <;>
        simp [World.extend, World.init, println, insertBikeHistoryData, InsertOne])

theorem World.extend_assoc (a b c : World) : (a.extend b).extend c = a.extend (b.extend c) := by
  simp [World.extend]

/-- The same for a sequence of deliveries. -/
theorem deliver_frame (arch : ℚ → Int) (evs : List (Option String × Message)) (w : World) :
    deliver arch evs w =
      ((deliver arch evs World.init).1, w.extend (deliver arch evs World.init).2) := by
  induction evs generalizing w with
  | nil => simp [deliver, World.extend_init]
  | cons ev rest ih =>
    obtain ⟨driverErr, msg⟩ := ev
    have hw := messageHandler_frame arch driverErr msg w
    rcases hinit : messageHandler arch driverErr msg World.init with ⟨x, d⟩
    rw [hinit] at hw
    cases x with
    | panicked => simp [deliver, hw, hinit]
    | returned =>
      simp only [deliver, hw, hinit]
      rw [ih (w.extend d), ih d, World.extend_assoc]

/-- Payloads `json.Unmarshal` rejects are logged and dropped. -/
theorem messageHandler_of_unmarshal_error (arch : ℚ → Int) (driverErr : Option String)
    (msg : Message) (w : World) (err : String) (h : json_Unmarshal msg.payload = .error err) :
    messageHandler arch driverErr msg w =
      (.returned, println (echoed msg w) ("Failed to parse payload: " ++ err)) := by
  simp [messageHandler, h, echoed]

/-! ## The scenarios of the specification -/

/-- Scenario 1: one document, with the values of the payload and the
timestamp as the BSON datetime of epoch second 1700000000. -/
theorem scenario1_one_document :
    messageHandler amd64 none scenario1 World.init =
      (.returned,
        ⟨[⟨"B1", 1700000000000, [30.1, 30.2], [5.0], false, [0.1, 0.2, 9.8], 101⟩],
         ["Received message on topic: bike_data", "Message: scenario 1",
          "Data inserted into MongoDB!"],
         [⟨"B1", ⟨1700000000, 0⟩, [30.1, 30.2], [5.0], false, [0.1, 0.2, 9.8], 101⟩]⟩) := by
  decide!

/-- Scenario 2: the welcome message is ignored. -/
theorem scenario2_no_document :
    messageHandler amd64 none scenario2 World.init =
      (.returned,
        ⟨[], ["Received message on topic: bike_data", "Message: scenario 2",
          "Ignore welcome message"], []⟩) := by
  decide

/-- Scenario 3: a `null` `seat_rotate` is reported and nothing is written. -/
theorem scenario3_no_document :
    messageHandler amd64 none scenario3 World.init =
      (.returned,
        ⟨[], ["Received message on topic: bike_data", "Message: scenario 3",
          "Invalid or nil seat_rotate"], []⟩) := by
  decide

/-- Scenario 4: a failing store write is logged, and the next event is stored. -/
theorem scenario4_write_failure :
    deliver amd64 [(some "server selection timeout", scenario1), (none, scenario1)] World.init =
      (.returned,
        ⟨[⟨"B1", 1700000000000, [30.1, 30.2], [5.0], false, [0.1, 0.2, 9.8], 101⟩],
         ["Received message on topic: bike_data", "Message: scenario 1",
          "Failed to insert data into MongoDB: server selection timeout",
          "Received message on topic: bike_data", "Message: scenario 1",
          "Data inserted into MongoDB!"],
         [⟨"B1", ⟨1700000000, 0⟩, [30.1, 30.2], [5.0], false, [0.1, 0.2, 9.8], 101⟩,
          ⟨"B1", ⟨1700000000, 0⟩, [30.1, 30.2], [5.0], false, [0.1, 0.2, 9.8], 101⟩]⟩) := by
  decide!

/-- Bytes that are not JSON are reported and dropped. -/
theorem garbage_dropped :
    messageHandler amd64 none garbage World.init =
      (.returned,
        ⟨[], ["Received message on topic: bike_data", "Message: not json",
          "Failed to parse payload: invalid character"], []⟩) := by
  decide

/-! ## The claims -/

/-- C1, as stated, fails. On the sample payload, an object without `"msg"` that
supplies all seven fields correctly typed, the single record handed to the
store has `keyes_pressure = 101` while the payload says `seat_tube = 101.5`;
and on a payload whose timestamp is `1e19` the stored instant is not the one
at `trunc(1e19)` seconds. -/
theorem C1_counterexample :
    (lookupLast "msg" sampleMembers = none ∧ Supplies sampleMembers sampleFields ∧
      (messageHandler amd64 none sample World.init).2.insertOneCalls =
        [⟨"B1", ⟨1700000000, 0⟩, [30.5, 30.25], [5], false, [0.5, 0.25, 9.75], 101⟩] ∧
      ((101 : Int) : ℚ) ≠ sampleFields.seat_tube) ∧
    (lookupLast "msg" lateMembers = none ∧ Supplies lateMembers lateFields ∧
      (messageHandler amd64 none late World.init).2.insertOneCalls =
        [⟨"B1", ⟨-9223372036854775808, 0⟩, [30.5], [5], true, [1], 101⟩] ∧
      time_Unix (truncate lateFields.timestamp) 0 ≠ ⟨-9223372036854775808, 0⟩) := by
  refine ⟨⟨rfl, ⟨rfl, rfl, rfl, rfl, rfl, rfl, rfl⟩, by decide!, by decide!⟩,
    ⟨rfl, ⟨rfl, rfl, rfl, rfl, rfl, rfl, rfl⟩, by decide!, by decide!⟩⟩

/-- C1, amended. For every payload that parses to an object without `"msg"`
and supplies all seven fields correctly typed, `messageHandler` returns and
hands exactly one record to the store: `bikeId = bike_id`, `timestamp` the
instant `int64(timestamp)` seconds after the epoch, `tire_pressure = tire`,
`seat_rotate = seat_rotate`, `isBrake = isBrake`, `seat_tube` the
`"acceleration"` array, `keyes_pressure = int64(seat_tube)`; the arrays are the
input arrays (same length, same order), and `int64` is truncation toward zero
whenever the integer part fits 64 bits. -/
theorem C1_record_of_well_formed (arch : ℚ → Int) (driverErr : Option String) (msg : Message)
    (w : World) (kvs : List (String × JSON)) (f : Fields)
    (hp : msg.payload = .doc (.obj kvs)) (hm : lookupLast "msg" kvs = none)
    (hs : Supplies kvs f) :
    (messageHandler arch driverErr msg w).1 = .returned ∧
    (messageHandler arch driverErr msg w).2.insertOneCalls = w.insertOneCalls ++
      [{ bikeId := f.bike_id, timestamp := time_Unix (int64 arch f.timestamp) 0,
         tire_pressure := f.tire, seat_rotate := f.seat_rotate, isBrake := f.isBrake,
         seat_tube := f.acceleration, keyes_pressure := int64 arch f.seat_tube }] ∧
    (fitsInt64 f.timestamp → int64 arch f.timestamp = truncate f.timestamp) ∧
    (fitsInt64 f.seat_tube → int64 arch f.seat_tube = truncate f.seat_tube) := by
  rw [messageHandler_of_supplies arch driverErr msg w kvs f hp hm hs]
  refine ⟨rfl, ?_, int64_of_fits arch, int64_of_fits arch⟩
  simp [insertBikeHistoryData_insertOneCalls]

/-- C1, amended, on the sample payload: one record, with the timestamp
`1700000000.75` stored as the instant at `1700000000` seconds and `seat_tube`
`101.5` stored as `101`. -/
theorem C1_record_of_well_formed_witness :
    (lookupLast "msg" sampleMembers = none ∧ Supplies sampleMembers sampleFields ∧
      fitsInt64 sampleFields.timestamp ∧ fitsInt64 sampleFields.seat_tube ∧
      truncate sampleFields.timestamp = 1700000000 ∧ truncate sampleFields.seat_tube = 101) ∧
    (messageHandler amd64 none sample World.init).1 = .returned ∧
    (messageHandler amd64 none sample World.init).2.insertOneCalls = [] ++
      [{ bikeId := sampleFields.bike_id,
         timestamp := time_Unix (int64 amd64 sampleFields.timestamp) 0,
         tire_pressure := sampleFields.tire, seat_rotate := sampleFields.seat_rotate,
         isBrake := sampleFields.isBrake, seat_tube := sampleFields.acceleration,
         keyes_pressure := int64 amd64 sampleFields.seat_tube }] ∧
    (fitsInt64 sampleFields.timestamp →
      int64 amd64 sampleFields.timestamp = truncate sampleFields.timestamp) ∧
    (fitsInt64 sampleFields.seat_tube →
      int64 amd64 sampleFields.seat_tube = truncate sampleFields.seat_tube) :=
  ⟨⟨rfl, ⟨rfl, rfl, rfl, rfl, rfl, rfl, rfl⟩, by decide!, by decide!, by decide!, by decide!⟩,
    C1_record_of_well_formed amd64 none sample World.init sampleMembers sampleFields rfl rfl
      ⟨rfl, rfl, rfl, rfl, rfl, rfl, rfl⟩⟩

/-- C2. For every payload that parses to an object containing the key `"msg"`,
whatever its value and whatever other members are present, `messageHandler`
logs, returns, builds no record and never calls `insertBikeHistoryData`: no
`InsertOne` call is made and the collection is unchanged. -/
theorem C2_heartbeat_ignored (arch : ℚ → Int) (driverErr : Option String) (msg : Message)
    (w : World) (kvs : List (String × JSON))
    (hp : msg.payload = .doc (.obj kvs)) (hm : ∃ v, lookupLast "msg" kvs = some v) :
    messageHandler arch driverErr msg w =
      (.returned, println (echoed msg w) "Ignore welcome message") ∧
    (messageHandler arch driverErr msg w).2.insertOneCalls = w.insertOneCalls ∧
    (messageHandler arch driverErr msg w).2.bikes_history = w.bikes_history := by
  obtain ⟨v, hv⟩ := hm
  have h : messageHandler arch driverErr msg w =
      (.returned, println (echoed msg w) "Ignore welcome message") := by
    simp [messageHandler, hp, json_Unmarshal, mapIndex, hv, echoed]
  rw [h]
  exact ⟨rfl, rfl, rfl⟩

/-- C2 on `{"msg":null,"bike_id":7}`. -/
theorem C2_heartbeat_ignored_witness :
    (∃ v, lookupLast "msg" markerMembers = some v) ∧
    (messageHandler amd64 none marker World.init).2.insertOneCalls = [] :=
  ⟨⟨.null, rfl⟩,
    (C2_heartbeat_ignored amd64 none marker World.init markerMembers rfl ⟨.null, rfl⟩).2.1⟩

/-- C3. Partial records are never persisted: when the payload is not an
object supplying all seven required fields with the expected shapes (a field
missing, null, of the wrong type, or an array with a non-numeric element),
`messageHandler` makes no `InsertOne` call and leaves the collection
unchanged. -/
theorem C3_only_complete_records (arch : ℚ → Int) (driverErr : Option String) (msg : Message)
    (w : World)
    (h : ∀ kvs f, msg.payload = .doc (.obj kvs) → ¬ Supplies kvs f) :
    (messageHandler arch driverErr msg w).2.insertOneCalls = w.insertOneCalls ∧
    (messageHandler arch driverErr msg w).2.bikes_history = w.bikes_history := by
  rcases messageHandler_writes_only_if arch driverErr msg w with hno | ⟨kvs, f, hp, -, hs⟩
  · exact hno
  · exact absurd hs (h kvs f hp)

/-- C3 on scenario 3 of the specification, whose `seat_rotate` is `null`. -/
theorem C3_only_complete_records_witness :
    (∀ kvs f, scenario3.payload = .doc (.obj kvs) → ¬ Supplies kvs f) ∧
    (messageHandler amd64 none scenario3 World.init).2.insertOneCalls = [] ∧
    (messageHandler amd64 none scenario3 World.init).2.bikes_history = [] :=
  have h : ∀ kvs f, scenario3.payload = .doc (.obj kvs) → ¬ Supplies kvs f := by
    intro kvs f hp hs
    simp only [scenario3, Payload.doc.injEq, JSON.obj.injEq] at hp
    subst hp
    have h4 := hs.2.2.2.1
    simp [scenario3Members, lookupLast] at h4
  ⟨h, C3_only_complete_records amd64 none scenario3 World.init h⟩

/-- C4 fails on the code: on the empty object `{}`, and on a telemetry payload
whose `isBrake` is a string, the unchecked type assertion panics, so
`messageHandler` does not return to the broker client. -/
theorem C4_panics_on_bad_field :
    messageHandler amd64 none emptyObject World.init =
      (.panicked, ⟨[], ["Received message on topic: bike_data", "Message: empty object"], []⟩) ∧
    messageHandler amd64 none brakeAsString World.init =
      (.panicked,
        ⟨[], ["Received message on topic: bike_data", "Message: brake as string"], []⟩) := by
  constructor <;> decide

/-- C5. A store write failure is non-fatal. For a valid payload whose
`InsertOne` call returns an error, exactly one `InsertOne` call is made (no
retry), the failure is logged, `messageHandler` returns, the collection is
unchanged, and whatever is delivered afterwards ends the same way, leaves the
same collection and adds the same output and calls as if the failed event had
never been delivered. -/
theorem C5_write_failure_non_fatal (arch : ℚ → Int) (err : String) (msg : Message)
    (w : World) (kvs : List (String × JSON)) (f : Fields)
    (hp : msg.payload = .doc (.obj kvs)) (hm : lookupLast "msg" kvs = none)
    (hs : Supplies kvs f) :
    (messageHandler arch (some err) msg w).1 = .returned ∧
    (messageHandler arch (some err) msg w).2.insertOneCalls =
      w.insertOneCalls ++ [record arch f] ∧
    (messageHandler arch (some err) msg w).2.bikes_history = w.bikes_history ∧
    (messageHandler arch (some err) msg w).2.stdout =
      w.stdout ++ ["Received message on topic: " ++ msg.topic, "Message: " ++ msg.text,
        "Failed to insert data into MongoDB: " ++ err] ∧
    ∀ rest : List (Option String × Message),
      (deliver arch ((some err, msg) :: rest) w).1 = (deliver arch rest w).1 ∧
      (deliver arch ((some err, msg) :: rest) w).2.bikes_history =
        (deliver arch rest w).2.bikes_history ∧
      ∃ d : World,
        (deliver arch ((some err, msg) :: rest) w).2 =
          (messageHandler arch (some err) msg w).2.extend d ∧
        (deliver arch rest w).2 = w.extend d := by
  have h := messageHandler_of_supplies arch (some err) msg w kvs f hp hm hs
  rw [insertBikeHistoryData_rejected] at h
  rw [h]
  refine ⟨rfl, rfl, rfl, by simp [echoed], ?_⟩
  intro rest
  have hd : deliver arch ((some err, msg) :: rest) w =
      deliver arch rest (messageHandler arch (some err) msg w).2 := by
    simp [deliver, h]
  rw [hd, h, deliver_frame arch rest w, deliver_frame arch rest
    { bikes_history := (echoed msg w).bikes_history,
      stdout := (echoed msg w).stdout ++ ["Failed to insert data into MongoDB: " ++ err],
      insertOneCalls := (echoed msg w).insertOneCalls ++
        [⟨f.bike_id, time_Unix (int64 arch f.timestamp) 0, f.tire, f.seat_rotate, f.isBrake,
          f.acceleration, int64 arch f.seat_tube⟩] }]
  exact ⟨rfl, rfl, _, rfl, rfl⟩

/-- C5 on the sample payload with a failing driver. -/
theorem C5_write_failure_non_fatal_witness :
    (lookupLast "msg" sampleMembers = none ∧ Supplies sampleMembers sampleFields) ∧
    (messageHandler amd64 (some "timeout") sample World.init).2.bikes_history = [] :=
  ⟨⟨rfl, ⟨rfl, rfl, rfl, rfl, rfl, rfl, rfl⟩⟩,
    (C5_write_failure_non_fatal amd64 "timeout" sample World.init sampleMembers sampleFields
      rfl rfl ⟨rfl, rfl, rfl, rfl, rfl, rfl, rfl⟩).2.2.1⟩

/-- C6. Over the append-only collection, where an accepted `InsertOne` appends
its document: handling a valid payload adds exactly one document, and handling
the same valid payload twice adds two documents with identical field values. -/
theorem C6_one_document_per_event (arch : ℚ → Int) (msg : Message)
    (w : World) (kvs : List (String × JSON)) (f : Fields)
    (hp : msg.payload = .doc (.obj kvs)) (hm : lookupLast "msg" kvs = none)
    (hs : Supplies kvs f) :
    (messageHandler arch none msg w).2.bikes_history =
      w.bikes_history ++ [marshal (record arch f)] ∧
    (deliver arch [(none, msg), (none, msg)] w).1 = .returned ∧
    (deliver arch [(none, msg), (none, msg)] w).2.bikes_history =
      w.bikes_history ++ [marshal (record arch f), marshal (record arch f)] := by
  have h := fun w => messageHandler_of_supplies arch none msg w kvs f hp hm hs
  simp [deliver, h, insertBikeHistoryData_accepted, record]

/-- C6 on the sample payload. -/
theorem C6_one_document_per_event_witness :
    (lookupLast "msg" sampleMembers = none ∧ Supplies sampleMembers sampleFields) ∧
    (deliver amd64 [(none, sample), (none, sample)] World.init).2.bikes_history =
      [] ++ [marshal (record amd64 sampleFields), marshal (record amd64 sampleFields)] :=
  ⟨⟨rfl, ⟨rfl, rfl, rfl, rfl, rfl, rfl, rfl⟩⟩,
    (C6_one_document_per_event amd64 sample World.init sampleMembers sampleFields
      rfl rfl ⟨rfl, rfl, rfl, rfl, rfl, rfl, rfl⟩).2.2⟩

/-- C7. For a payload that is an object without `"msg"` whose `bike_id` is a
string, `timestamp` a number and `tire` an array of numbers, but whose
`seat_rotate` is not an array of numbers (absent, null, not an array, or an
array with a non-numeric element), `messageHandler` reports the validation
failure ("Invalid or nil seat_rotate" when it is not an array, "Invalid value
in seat_rotate slice" when it is), returns, and performs no store write. -/
theorem C7_bad_seat_rotate (arch : ℚ → Int) (driverErr : Option String) (msg : Message)
    (w : World) (kvs : List (String × JSON)) (bike_id : String) (timestamp : ℚ) (tire : List ℚ)
    (hp : msg.payload = .doc (.obj kvs)) (hm : lookupLast "msg" kvs = none)
    (h1 : lookupLast "bike_id" kvs = some (.str bike_id))
    (h2 : lookupLast "timestamp" kvs = some (.num timestamp))
    (h3 : lookupLast "tire" kvs = some (.arr (tire.map .num)))
    (h4 : ∀ xs : List ℚ, lookupLast "seat_rotate" kvs ≠ some (.arr (xs.map .num))) :
    ((∀ vs, lookupLast "seat_rotate" kvs ≠ some (.arr vs)) →
      messageHandler arch driverErr msg w =
        (.returned, println (echoed msg w) "Invalid or nil seat_rotate")) ∧
    ((∃ vs, lookupLast "seat_rotate" kvs = some (.arr vs)) →
      messageHandler arch driverErr msg w =
        (.returned, println (echoed msg w) "Invalid value in seat_rotate slice")) ∧
    (messageHandler arch driverErr msg w).1 = .returned ∧
    (messageHandler arch driverErr msg w).2.insertOneCalls = w.insertOneCalls ∧
    (messageHandler arch driverErr msg w).2.bikes_history = w.bikes_history := by
  have a1 : assertString (lookupLast "bike_id" kvs) = some bike_id := by rw [h1]; rfl
  have a2 : assertFloat64 (lookupLast "timestamp" kvs) = some timestamp := by rw [h2]; rfl
  have a3 : assertSlice (lookupLast "tire" kvs) = some (tire.map .num) := by rw [h3]; rfl
  have key : (∃ vs, lookupLast "seat_rotate" kvs = some (.arr vs) ∧
        messageHandler arch driverErr msg w =
          (.returned, println (echoed msg w) "Invalid value in seat_rotate slice")) ∨
      ((∀ vs, lookupLast "seat_rotate" kvs ≠ some (.arr vs)) ∧
        messageHandler arch driverErr msg w =
          (.returned, println (echoed msg w) "Invalid or nil seat_rotate")) := by
    cases hsl : assertSlice (lookupLast "seat_rotate" kvs) with
    | none =>
      right
      constructor
      · intro vs hvs
        simp [hvs, assertSlice] at hsl
      · simp [messageHandler, hp, json_Unmarshal, mapIndex, hm, a1, a2, a3, hsl,
          assertFloats_map_num, echoed]
    | some vs =>
      left
      have hvs := assertSlice_eq_some hsl
      refine ⟨vs, hvs, ?_⟩
      cases hfl : assertFloats vs with
      | some xs =>
        rw [assertFloats_eq_some hfl] at hvs
        exact absurd hvs (h4 xs)
      | none =>
        simp [messageHandler, hp, json_Unmarshal, mapIndex, hm, a1, a2, a3, hsl, hfl,
          assertFloats_map_num, echoed]
  rcases key with ⟨vs, hvs, hr⟩ | ⟨hall, hr⟩
  · refine ⟨fun hno => absurd hvs (hno vs), fun _ => hr, ?_⟩
    rw [hr]
    exact ⟨rfl, rfl, rfl⟩
  · refine ⟨fun _ => hr, fun ⟨vs, hvs⟩ => absurd hvs (hall vs), ?_⟩
    rw [hr]
    exact ⟨rfl, rfl, rfl⟩

/-- C7 on scenario 3 of the specification, whose `seat_rotate` is `null`. -/
theorem C7_bad_seat_rotate_witness :
    (∀ xs : List ℚ, lookupLast "seat_rotate" scenario3Members ≠ some (.arr (xs.map .num))) ∧
    (messageHandler amd64 none scenario3 World.init).1 = .returned ∧
    (messageHandler amd64 none scenario3 World.init).2.insertOneCalls = [] ∧
    (messageHandler amd64 none scenario3 World.init).2.bikes_history = [] :=
  have h4 : ∀ xs : List ℚ,
      lookupLast "seat_rotate" scenario3Members ≠ some (.arr (xs.map .num)) := by
    intro xs h
    simp [scenario3Members, lookupLast] at h
  ⟨h4, (C7_bad_seat_rotate amd64 none scenario3 World.init scenario3Members "B2" 1700000001
    [30.0] rfl rfl rfl rfl rfl h4).2.2⟩

/-- C8 fails on the code for the payload `null`: `json.Unmarshal` reports no
error and leaves the map `nil`, the marker test finds nothing, and the
unchecked assertion on `bike_id` panics; nothing is logged about a parse
failure and `messageHandler` does not return. -/
theorem C8_null_payload_panics :
    json_Unmarshal nullLiteral.payload = .ok none ∧
    messageHandler amd64 none nullLiteral World.init =
      (.panicked, ⟨[], ["Received message on topic: bike_data", "Message: null"], []⟩) := by
  constructor
  · rfl
  · decide

/-- C9, as stated, fails. The timestamp `1e17` is within the 64-bit signed
range and the handler hands the store the instant at `trunc(1e17)` seconds,
but the collection holds instants as 64-bit milliseconds and `1e20`
milliseconds is beyond that range: the persisted instant is not `trunc(t)`
seconds after the epoch. -/
theorem C9_counterexample :
    lookupLast "msg" farMembers = none ∧ Supplies farMembers farFields ∧
    fitsInt64 farFields.timestamp ∧ truncate farFields.timestamp = 100000000000000000 ∧
    ∃ s, (messageHandler amd64 none far World.init).2.bikes_history = [s] ∧
      s.timestamp ≤ maxInt64 ∧ maxInt64 < truncate farFields.timestamp * 1000 ∧
      s.timestamp ≠ truncate farFields.timestamp * 1000 :=
  ⟨rfl, ⟨rfl, rfl, rfl, rfl, rfl, rfl, rfl⟩, by decide!, by decide!,
    marshal (record amd64 farFields), by decide!, by decide!, by decide!, by decide!⟩

/-- C9, amended. For a valid payload whose timestamp `t` has an integer part
within the 64-bit signed range, the instant handed to the store is exactly
`trunc(t)` seconds after the epoch with a zero sub-second component; the
persisted instant is the BSON datetime of that instant, which is exactly
`trunc(t)` seconds (`trunc(t) * 1000` milliseconds) whenever
`|trunc(t)| ≤ 9223372036854775`; and any other valid payload whose timestamp
has the same integer part yields the same instant, handed over and persisted. -/
theorem C9_timestamp_whole_seconds (arch : ℚ → Int) (driverErr : Option String)
    (msg : Message) (w : World) (kvs : List (String × JSON)) (f : Fields)
    (hp : msg.payload = .doc (.obj kvs)) (hm : lookupLast "msg" kvs = none)
    (hs : Supplies kvs f) (hfit : fitsInt64 f.timestamp) :
    (∃ d, (messageHandler arch driverErr msg w).2.insertOneCalls = w.insertOneCalls ++ [d] ∧
      d.timestamp = { sec := truncate f.timestamp, nsec := 0 }) ∧
    (∃ s, (messageHandler arch none msg w).2.bikes_history = w.bikes_history ++ [s] ∧
      s.timestamp = bsonDateTime { sec := truncate f.timestamp, nsec := 0 } ∧
      (fitsDateTime (truncate f.timestamp) → s.timestamp = truncate f.timestamp * 1000)) ∧
    ∀ (driverErr' : Option String) (msg' : Message) (w' : World)
      (kvs' : List (String × JSON)) (f' : Fields),
      msg'.payload = .doc (.obj kvs') → lookupLast "msg" kvs' = none → Supplies kvs' f' →
      truncate f'.timestamp = truncate f.timestamp →
      (∃ d', (messageHandler arch driverErr' msg' w').2.insertOneCalls =
          w'.insertOneCalls ++ [d'] ∧
        d'.timestamp = { sec := truncate f.timestamp, nsec := 0 }) ∧
      (∃ s', (messageHandler arch none msg' w').2.bikes_history = w'.bikes_history ++ [s'] ∧
        s'.timestamp = bsonDateTime { sec := truncate f.timestamp, nsec := 0 }) := by
  have main : ∀ (driverErr' : Option String) (msg' : Message) (w' : World)
      (kvs' : List (String × JSON)) (f' : Fields),
      msg'.payload = .doc (.obj kvs') → lookupLast "msg" kvs' = none → Supplies kvs' f' →
      truncate f'.timestamp = truncate f.timestamp →
      (∃ d', (messageHandler arch driverErr' msg' w').2.insertOneCalls =
          w'.insertOneCalls ++ [d'] ∧
        d'.timestamp = { sec := truncate f.timestamp, nsec := 0 }) ∧
      (∃ s', (messageHandler arch none msg' w').2.bikes_history = w'.bikes_history ++ [s'] ∧
        s'.timestamp = bsonDateTime { sec := truncate f.timestamp, nsec := 0 }) := by
    intro driverErr' msg' w' kvs' f' hp' hm' hs' ht
    have hfit' : fitsInt64 f'.timestamp := by
      unfold fitsInt64 at hfit ⊢
      rw [ht]
      exact hfit
    constructor
    · refine ⟨record arch f', ?_, ?_⟩
      · rw [messageHandler_of_supplies arch driverErr' msg' w' kvs' f' hp' hm' hs']
        simp [insertBikeHistoryData_insertOneCalls, record]
      · simp [record, time_Unix, int64_of_fits arch hfit', ht]
    · refine ⟨marshal (record arch f'), ?_, ?_⟩
      · rw [messageHandler_of_supplies arch none msg' w' kvs' f' hp' hm' hs',
          insertBikeHistoryData_accepted]
        rfl
      · simp [marshal, record, time_Unix, int64_of_fits arch hfit', ht]
  obtain ⟨hd, s, hs1, hs2⟩ := main driverErr msg w kvs f hp hm hs rfl
  exact ⟨hd, ⟨s, hs1, hs2, fun hb => by rw [hs2]; exact bsonDateTime_of_fits hb⟩, main⟩

/-- C9, amended, on the sample payload, whose timestamp is `1700000000.75`:
the instant handed over is second `1700000000`, persisted as
`1700000000000` milliseconds. -/
theorem C9_timestamp_whole_seconds_witness :
    (lookupLast "msg" sampleMembers = none ∧ Supplies sampleMembers sampleFields ∧
      fitsInt64 sampleFields.timestamp ∧ truncate sampleFields.timestamp = 1700000000 ∧
      fitsDateTime (truncate sampleFields.timestamp)) ∧
    (∃ d, (messageHandler amd64 none sample World.init).2.insertOneCalls = [] ++ [d] ∧
      d.timestamp = { sec := truncate sampleFields.timestamp, nsec := 0 }) ∧
    ∃ s, (messageHandler amd64 none sample World.init).2.bikes_history = [] ++ [s] ∧
      s.timestamp = bsonDateTime { sec := truncate sampleFields.timestamp, nsec := 0 } ∧
      (fitsDateTime (truncate sampleFields.timestamp) →
        s.timestamp = truncate sampleFields.timestamp * 1000) :=
  have h := C9_timestamp_whole_seconds amd64 none sample World.init sampleMembers sampleFields
    rfl rfl ⟨rfl, rfl, rfl, rfl, rfl, rfl, rfl⟩ (by decide!)
  ⟨⟨rfl, ⟨rfl, rfl, rfl, rfl, rfl, rfl, rfl⟩, by decide!, by decide!, by decide!⟩, h.1, h.2.1⟩

/-- C10, as stated, fails. The `seat_tube` value `1e19` is a `float64` whose
integer part does not fit 64 bits: the stored `keyes_pressure` is `-2^63`,
not `seat_tube` truncated toward zero. -/
theorem C10_counterexample :
    lookupLast "msg" heavyMembers = none ∧ Supplies heavyMembers heavyFields ∧
    IsFloat64 heavyFields.seat_tube ∧
    (messageHandler amd64 none heavy World.init).2.insertOneCalls =
      [⟨"B1", ⟨1700000000, 0⟩, [30.5], [5], true, [1], -9223372036854775808⟩] ∧
    (messageHandler amd64 none heavy World.init).2.bikes_history =
      [⟨"B1", 1700000000000, [30.5], [5], true, [1], -9223372036854775808⟩] ∧
    truncate heavyFields.seat_tube = 10000000000000000000 ∧
    (-9223372036854775808 : Int) ≠ truncate heavyFields.seat_tube :=
  ⟨rfl, ⟨rfl, rfl, rfl, rfl, rfl, rfl, rfl⟩,
    ⟨19073486328125, 19, by norm_num, by norm_num, by norm_num, by norm_num [heavyFields]⟩,
    by decide!, by decide!, by decide!, by decide!⟩

/-- C10, amended. For every valid payload the handler returns and the stored
`keyes_pressure` is `int64(seat_tube)`: the payload's `seat_tube` number
truncated toward zero whenever its integer part fits in a signed 64-bit
integer, which is the case for every `float64` with a fractional part. A
non-integer `seat_tube` is accepted rather than rejected, and the persisted
integer differs from the input value whenever the input has a fractional
part. -/
theorem C10_seat_tube_truncated (arch : ℚ → Int) (driverErr : Option String) (msg : Message)
    (w : World) (kvs : List (String × JSON)) (f : Fields)
    (hp : msg.payload = .doc (.obj kvs)) (hm : lookupLast "msg" kvs = none)
    (hs : Supplies kvs f) :
    (messageHandler arch driverErr msg w).1 = .returned ∧
    ∃ d, (messageHandler arch driverErr msg w).2.insertOneCalls = w.insertOneCalls ++ [d] ∧
      d.keyes_pressure = int64 arch f.seat_tube ∧
      (∃ s, (messageHandler arch none msg w).2.bikes_history = w.bikes_history ++ [s] ∧
        s.keyes_pressure = d.keyes_pressure) ∧
      (fitsInt64 f.seat_tube → d.keyes_pressure = truncate f.seat_tube) ∧
      (IsFloat64 f.seat_tube → (∀ n : Int, (n : ℚ) ≠ f.seat_tube) →
        d.keyes_pressure = truncate f.seat_tube ∧ (d.keyes_pressure : ℚ) ≠ f.seat_tube) := by
  rw [messageHandler_of_supplies arch driverErr msg w kvs f hp hm hs,
    messageHandler_of_supplies arch none msg w kvs f hp hm hs]
  refine ⟨rfl, record arch f, ?_, rfl, ⟨marshal (record arch f), ?_, rfl⟩, ?_, ?_⟩
  · simp [insertBikeHistoryData_insertOneCalls, record]
  · rw [insertBikeHistoryData_accepted]
    rfl
  · intro hfit
    simp [record, int64_of_fits arch hfit]
  · intro hx hfrac
    have hk : (record arch f).keyes_pressure = truncate f.seat_tube := by
      simp [record, int64_of_fits arch (hx.fitsInt64 hfrac)]
    exact ⟨hk, hfrac _⟩

/-- C10, amended, on the sample payload, whose `seat_tube` is `101.5`: it is
accepted, and the stored integer is `101`. -/
theorem C10_seat_tube_truncated_witness :
    (lookupLast "msg" sampleMembers = none ∧ Supplies sampleMembers sampleFields ∧
      IsFloat64 sampleFields.seat_tube ∧ (∀ n : Int, (n : ℚ) ≠ sampleFields.seat_tube) ∧
      fitsInt64 sampleFields.seat_tube ∧ truncate sampleFields.seat_tube = 101) ∧
    (messageHandler amd64 none sample World.init).1 = .returned ∧
    ∃ d, (messageHandler amd64 none sample World.init).2.insertOneCalls = [] ++ [d] ∧
      d.keyes_pressure = truncate sampleFields.seat_tube ∧
      (d.keyes_pressure : ℚ) ≠ sampleFields.seat_tube :=
  have hx : IsFloat64 sampleFields.seat_tube :=
    ⟨203, -1, by norm_num, by norm_num, by norm_num, by norm_num [sampleFields]⟩
  have hfrac : ∀ n : Int, (n : ℚ) ≠ sampleFields.seat_tube := by
    intro n h
    have h2 : ((2 * n : Int) : ℚ) = ((203 : Int) : ℚ) := by
      push_cast
      rw [h]
      norm_num [sampleFields]
    have h3 : 2 * n = 203 := by exact_mod_cast h2
    omega
  have h := C10_seat_tube_truncated amd64 none sample World.init sampleMembers sampleFields
    rfl rfl ⟨rfl, rfl, rfl, rfl, rfl, rfl, rfl⟩
  ⟨⟨rfl, ⟨rfl, rfl, rfl, rfl, rfl, rfl, rfl⟩, hx, hfrac, by decide!, by decide!⟩, h.1,
    h.2.elim fun d hd => ⟨d, hd.1, (hd.2.2.2.2 hx hfrac).1, (hd.2.2.2.2 hx hfrac).2⟩⟩

end IBSMS
